import Mathlib

/-!
Shallow embedding of the GeoArchive Zotero W3ID URL batch-update notebook
(src/notebooks/GeoArchive - Zotero - W3ID_URL.ipynb).

The notebook derives a permanent W3ID redirect URL for every item of a
Zotero group library and pushes the updates back page by page.  The remote
collaborator (pyzotero) is modelled by its observable behaviour: the initial
page returned by list_items, the finite sequence of pages yielded by the
continuation iterator, and an oracle giving the boolean success result of
each batch-submit call (indexed by call number).  The run records the pages
fetched, the batch-submit calls issued, the printed progress lines, and the
final running total, exactly as the script computes them.
-/

/-- The nested `item["library"]` record; only its `id` field is read. -/
structure Library where
  id : String
  deriving DecidableEq

/-- An item of the remote library, restricted to the fields the script reads:
`item["library"]["id"]`, `item["key"]`, `item["version"]`. -/
structure Item where
  library : Library
  key : String
  version : Nat
  deriving DecidableEq

/-- The update dictionary built by `add_w3id_url`: exactly the three fields
`key`, `version`, `url`. -/
structure ItemUpdate where
  key : String
  version : Nat
  url : String
  deriving DecidableEq

/-- `add_w3id_url(item)` from the notebook: read the library id and item key,
build the W3ID URL by string interpolation, and return the three-field
update dictionary. -/
def add_w3id_url (item : Item) : ItemUpdate :=
  let library_id := item.library.id
  let item_key := item.key
  let w3id_url := "https://w3id.org/usgs/z/" ++ library_id ++ "/" ++ item_key
  { key := item_key, version := item.version, url := w3id_url }

/-- `process_batch(batch)` from the notebook: map every item of the batch
through `add_w3id_url`. -/
def process_batch (batch : List Item) : List ItemUpdate :=
  batch.map (fun i => add_w3id_url i)

/-- The observable record of one run of the update script: the pages fetched
from the collaborator in order, the batch-submit calls issued in order, the
printed progress lines (batch size and success flag), and the final value of
`total_items`. -/
structure RunLog where
  fetched : List (List Item)
  batches : List (List ItemUpdate)
  printed : List (Nat × Bool)
  total_items : Nat
  deriving DecidableEq

/-- The `for item_batch in report_items_iterator` loop of the notebook.
`pages` are the pages the iterator will yield, `idx` the index of the next
batch-submit call (the initial call is number 0), and `total` the running
`total_items`.  Each iteration maps the page through `process_batch`,
submits it (reading the success oracle at the current call index), prints
the batch size with the success flag, and adds the page length to the
running total. -/
def loopGo (successOf : Nat → Bool) : List (List Item) → Nat → Nat → RunLog
  | [], _, total => ⟨[], [], [], total⟩
  | item_batch :: rest, idx, total =>
    let batch_updates := process_batch item_batch
    let results_update := successOf idx
    let r := loopGo successOf rest (idx + 1) (total + item_batch.length)
    ⟨item_batch :: r.fetched, batch_updates :: r.batches,
      (batch_updates.length, results_update) :: r.printed, r.total_items⟩

/-- The whole update script of the notebook: `total_items` starts at the
length of the initial page, the initial page is processed and submitted
unconditionally (call number 0), and then the iterator pages are handled by
the loop with call numbers 1, 2, ...  `report_items` is the page returned by
`z_ni43101.items(...)` and `iter_pages` are the pages the `iterfollow`
iterator yields before exhaustion. -/
def w3id_update_run (report_items : List Item) (iter_pages : List (List Item))
    (successOf : Nat → Bool) : RunLog :=
  let total_items := report_items.length
  let initial_batch_updates := process_batch report_items
  let results_update := successOf 0
  let r := loopGo successOf iter_pages 1 total_items
  ⟨report_items :: r.fetched, initial_batch_updates :: r.batches,
    (initial_batch_updates.length, results_update) :: r.printed, r.total_items⟩

/-- Fuel-indexed small-step view of the loop over a possibly infinite
iterator: `iter i = none` means the iterator signals exhaustion at step `i`,
`iter i = some page` that it yields another page.  `runFrom iter i total
fuel` returns the final total if the iterator exhausts within `fuel` steps
starting from step `i`, and `none` if the fuel runs out first. -/
def runFrom (iter : Nat → Option (List Item)) : Nat → Nat → Nat → Option Nat
  | _, _, 0 => none
  | i, total, fuel + 1 =>
    match iter i with
    | none => some total
    | some page => runFrom iter (i + 1) (total + page.length) fuel

/-- A sample item of the NI 43-101 library used for concrete runs. -/
def sample_item : Item := ⟨⟨"4530692"⟩, "ABC123", 7⟩

/- ### Helper lemmas about the loop -/

theorem loopGo_total (successOf : Nat → Bool) (pages : List (List Item)) :
    ∀ idx total : Nat,
      (loopGo successOf pages idx total).total_items =
        total + (pages.map List.length).sum := by
  induction pages with
  | nil => intro idx total; simp [loopGo]
  | cons page rest ih =>
    intro idx total
    simp [loopGo, ih (idx + 1) (total + page.length)]
    omega

theorem loopGo_batches (successOf : Nat → Bool) (pages : List (List Item)) :
    ∀ idx total : Nat,
      (loopGo successOf pages idx total).batches = pages.map process_batch := by
  induction pages with
  | nil => intro idx total; simp [loopGo]
  | cons page rest ih =>
    intro idx total
    simp [loopGo, ih (idx + 1) (total + page.length)]

theorem loopGo_fetched (successOf : Nat → Bool) (pages : List (List Item)) :
    ∀ idx total : Nat,
      (loopGo successOf pages idx total).fetched = pages := by
  induction pages with
  | nil => intro idx total; simp [loopGo]
  | cons page rest ih =>
    intro idx total
    simp [loopGo, ih (idx + 1) (total + page.length)]

theorem run_total (report_items : List Item) (iter_pages : List (List Item))
    (successOf : Nat → Bool) :
    (w3id_update_run report_items iter_pages successOf).total_items =
      ((report_items :: iter_pages).map List.length).sum := by
  simp [w3id_update_run, loopGo_total]

theorem run_batches (report_items : List Item) (iter_pages : List (List Item))
    (successOf : Nat → Bool) :
    (w3id_update_run report_items iter_pages successOf).batches =
      (report_items :: iter_pages).map process_batch := by
  simp [w3id_update_run, loopGo_batches, process_batch]

theorem run_fetched (report_items : List Item) (iter_pages : List (List Item))
    (successOf : Nat → Bool) :
    (w3id_update_run report_items iter_pages successOf).fetched =
      report_items :: iter_pages := by
  simp [w3id_update_run, loopGo_fetched]

theorem runFrom_some_exhausts (iter : Nat → Option (List Item)) :
    ∀ (fuel i total t : Nat), runFrom iter i total fuel = some t →
      ∃ n, iter n = none := by
  intro fuel
  induction fuel with
  | zero => intro i total t h; simp [runFrom] at h
  | succ fuel ih =>
    intro i total t h
    rw [runFrom] at h
    cases hi : iter i with
    | none => exact ⟨i, hi⟩
    | some page =>
      rw [hi] at h
      exact ih (i + 1) (total + page.length) t h

theorem exhaustion_runFrom (iter : Nat → Option (List Item)) :
    ∀ (n i total : Nat), iter (i + n) = none →
      ∃ t, runFrom iter i total (n + 1) = some t := by
  intro n
  induction n with
  | zero =>
    intro i total h
    rw [Nat.add_zero] at h
    exact ⟨total, by rw [runFrom, h]⟩
  | succ n ih =>
    intro i total h
    cases hi : iter i with
    | none => exact ⟨total, by rw [runFrom, hi]⟩
    | some page =>
      have h2 : iter (i + 1 + n) = none := by
        have : i + 1 + n = i + (n + 1) := by omega
        rw [this]; exact h
      obtain ⟨t, ht⟩ := ih (i + 1) (total + page.length) h2
      exact ⟨t, by rw [runFrom, hi]; exact ht⟩

/- ### The claims -/

/-- C1: the final total reported by the batch URL updater equals the sum of
the item counts of all pages returned by the collaborator (the initial page
plus every iterator page), with no item double-counted or skipped. -/
theorem total_items_eq_sum_of_page_sizes (report_items : List Item)
    (iter_pages : List (List Item)) (successOf : Nat → Bool) :
    (w3id_update_run report_items iter_pages successOf).total_items =
      ((report_items :: iter_pages).map List.length).sum :=
  run_total report_items iter_pages successOf

/-- C2: with exactly 3 pages of sizes 50, 50 and 12 the updater issues
exactly 3 batch-submit calls with request sequences of sizes 50, 50, 12 in
that order and reports a final total of 112. -/
theorem pages_50_50_12 (successOf : Nat → Bool) :
    ((w3id_update_run (List.replicate 50 sample_item)
          [List.replicate 50 sample_item, List.replicate 12 sample_item]
          successOf).batches.map List.length = [50, 50, 12]) ∧
      (w3id_update_run (List.replicate 50 sample_item)
          [List.replicate 50 sample_item, List.replicate 12 sample_item]
          successOf).total_items = 112 := by
  constructor
  · rw [run_batches]
    simp [process_batch]
  · rw [run_total]
    simp

/-- C3: the URL derivation is a pure deterministic function of the library
id L and key K, producing exactly the string
https://w3id.org/usgs/z/ ++ L ++ / ++ K as the url field of the update. -/
theorem derive_url_eq (L K : String) (v : Nat) (hL : L ≠ "") (hK : K ≠ "") :
    (add_w3id_url ⟨⟨L⟩, K, v⟩).url = "https://w3id.org/usgs/z/" ++ L ++ "/" ++ K :=
  rfl

/-- Witness for C3: at L = 4530692, K = ABC123 the derived url is exactly
https://w3id.org/usgs/z/4530692/ABC123. -/
theorem derive_url_eq_witness :
    ("4530692" : String) ≠ "" ∧ ("ABC123" : String) ≠ "" ∧
      (add_w3id_url ⟨⟨"4530692"⟩, "ABC123", 0⟩).url =
        "https://w3id.org/usgs/z/4530692/ABC123" :=
  ⟨by decide, by decide, by
    have h := derive_url_eq "4530692" "ABC123" 0 (by decide) (by decide)
    rw [h]; rfl⟩

/-- C4 counterexample: with an empty initial page and an immediately
exhausted iterator the script still issues one batch-submit call (with an
empty request sequence), not zero: the notebook calls
z_ni43101.update_items(initial_batch_updates) unconditionally before the
loop. -/
theorem empty_run_one_call :
    (w3id_update_run [] [] (fun _ => true)).batches.length = 1 ∧
      ¬ (w3id_update_run [] [] (fun _ => true)).batches.length = 0 := by
  decide

/-- C4 amended: with zero matching items the updater performs exactly one
batch-submit call, carrying an empty request sequence, and reports a final
total of 0. -/
theorem empty_run (successOf : Nat → Bool) :
    (w3id_update_run [] [] successOf).batches = [[]] ∧
      (w3id_update_run [] [] successOf).total_items = 0 :=
  ⟨rfl, rfl⟩

/-- C5: a batch-submit call reporting success = false does not halt the
run: every page (the initial one and all iterator pages) is still fetched
and processed, one batch per page, and the failed batch counts towards the
final total just like every other page. -/
theorem failure_does_not_halt (report_items : List Item)
    (iter_pages : List (List Item)) (successOf : Nat → Bool) (k : Nat)
    (hfail : successOf k = false) :
    (w3id_update_run report_items iter_pages successOf).fetched =
        report_items :: iter_pages ∧
      (w3id_update_run report_items iter_pages successOf).batches =
        (report_items :: iter_pages).map process_batch ∧
      (w3id_update_run report_items iter_pages successOf).total_items =
        ((report_items :: iter_pages).map List.length).sum :=
  ⟨run_fetched report_items iter_pages successOf,
    run_batches report_items iter_pages successOf,
    run_total report_items iter_pages successOf⟩

/-- Witness for C5: a run of three one-item pages whose second batch-submit
call (call number 1) reports failure still reports the full total 3. -/
theorem failure_does_not_halt_witness :
    (fun i => decide ¬ i = 1) 1 = false ∧
      (w3id_update_run [sample_item] [[sample_item], [sample_item]]
          (fun i => decide ¬ i = 1)).total_items = 3 :=
  ⟨by decide, by
    have h := failure_does_not_halt [sample_item] [[sample_item], [sample_item]]
      (fun i => decide ¬ i = 1) 1 (by decide)
    rw [h.2.2]; rfl⟩

/-- C6: the updater makes exactly one batch-submit call per fetched page,
whose request sequence is the pointwise map of the URL derivation over the
page (preserving length and order); hence when every page holds at most 50
items, every batch-submit call carries at most 50 update requests. -/
theorem one_call_per_page (report_items : List Item)
    (iter_pages : List (List Item)) (successOf : Nat → Bool)
    (hbound : ∀ p ∈ report_items :: iter_pages, p.length ≤ 50) :
    (w3id_update_run report_items iter_pages successOf).batches =
        (report_items :: iter_pages).map process_batch ∧
      ∀ b ∈ (w3id_update_run report_items iter_pages successOf).batches,
        b.length ≤ 50 := by
  refine ⟨run_batches report_items iter_pages successOf, ?_⟩
  intro b hb
  rw [run_batches] at hb
  obtain ⟨p, hp, rfl⟩ := List.mem_map.mp hb
  simpa [process_batch] using hbound p hp

/-- Witness for C6: a concrete two-page run whose batches are exactly the
processed pages. -/
theorem one_call_per_page_witness :
    (w3id_update_run [sample_item] [[sample_item]] (fun _ => true)).batches =
      [process_batch [sample_item], process_batch [sample_item]] :=
  (one_call_per_page [sample_item] [[sample_item]] (fun _ => true)
    (by decide)).1

/-- C7: every update request submitted consists of exactly the three fields
key (the item key, unchanged), version (the item version as read, unchanged)
and the derived url; no other field of the item appears (the ItemUpdate
record has no other field). -/
theorem update_fields (item : Item) :
    add_w3id_url item =
      { key := item.key, version := item.version,
        url := "https://w3id.org/usgs/z/" ++ item.library.id ++ "/" ++ item.key } :=
  rfl

/-- C8: the update loop over a (possibly infinite) continuation iterator
terminates with a final total for some amount of fuel iff the iterator
eventually signals exhaustion. -/
theorem loop_finite_iff_exhaustion (iter : Nat → Option (List Item))
    (t0 : Nat) :
    (∃ fuel t, runFrom iter 0 t0 fuel = some t) ↔ ∃ n, iter n = none := by
  constructor
  · rintro ⟨fuel, t, h⟩
    exact runFrom_some_exhausts iter fuel 0 t0 t h
  · rintro ⟨n, hn⟩
    have h0 : iter (0 + n) = none := by rw [Nat.zero_add]; exact hn
    obtain ⟨t, ht⟩ := exhaustion_runFrom iter n 0 t0 h0
    exact ⟨n + 1, t, ht⟩

/-- C9: the success booleans returned by the batch-submit calls influence
nothing but the printed lines: two runs over the same pages that differ only
in the success oracle fetch the same pages, issue the same batch-submit
calls, and report the same final total. -/
theorem success_noninterference (report_items : List Item)
    (iter_pages : List (List Item)) (s1 s2 : Nat → Bool) :
    (w3id_update_run report_items iter_pages s1).fetched =
        (w3id_update_run report_items iter_pages s2).fetched ∧
      (w3id_update_run report_items iter_pages s1).batches =
        (w3id_update_run report_items iter_pages s2).batches ∧
      (w3id_update_run report_items iter_pages s1).total_items =
        (w3id_update_run report_items iter_pages s2).total_items := by
  refine ⟨?_, ?_, ?_⟩
  · rw [run_fetched, run_fetched]
  · rw [run_batches, run_batches]
  · rw [run_total, run_total]

/-- C10: the URL derivation is total over all string-valued library ids and
keys, including empty strings: it always returns the three-field update with
no failure mode; in particular at L = K = empty the url is
https://w3id.org/usgs/z// . -/
theorem add_w3id_url_total (L K : String) (v : Nat) :
    add_w3id_url ⟨⟨L⟩, K, v⟩ =
        ⟨K, v, "https://w3id.org/usgs/z/" ++ L ++ "/" ++ K⟩ ∧
      add_w3id_url ⟨⟨""⟩, "", 0⟩ = ⟨"", 0, "https://w3id.org/usgs/z//"⟩ :=
  ⟨rfl, rfl⟩
